import Mathlib

/-
Verification of the batch-orchestration core of the `scraping` repository:
the checkpoint store (`csv_manager.py`), the per-item retry / token policy of
the batch orchestrator (`batch_scraper.py`), and the token-expiry detection
shared by the two fetcher implementations (`batch_scraper.py`,
`api_client.py`).

The Python code is embedded shallowly: the pandas DataFrame becomes a
`List Row` of string-valued columns, the `asyncio.Lock`-serialized methods of
`CSVManager` become pure state transformers on a `Store` (in-memory table plus
durable file plus temp file), and `BatchScraper._process_item` becomes a pure
function of the cancellation flag and the outcomes of the (at most two) fetch
attempts.  String primitives from the Python standard library (`str.strip`,
`str.upper`, slicing, the substring test `in`, and `urlparse`/`parse_qs`) are
re-implemented structurally over character lists so that every definition
evaluates inside the kernel.
-/

namespace Scraping

/-! ## String primitives (models of the Python built-ins used by the source) -/

/-- Model of the Python substring test at one position and beyond:
`needle` occurs somewhere in the character list. -/
def subListAt (needle : List Char) : List Char → Bool
  | [] => needle.isEmpty
  | c :: rest => needle.isPrefixOf (c :: rest) || subListAt needle rest

/-- Model of Python `pat in s` (substring containment). -/
def strContains (s pat : String) : Bool :=
  subListAt pat.data s.data

/-- Model of Python `str.upper()` (ASCII letters; the strings compared by the
source are ASCII keywords and error messages). -/
def strUpper (s : String) : String :=
  ⟨s.data.map Char.toUpper⟩

/-- Model of Python `str.strip()`: drop whitespace from both ends. -/
def strTrim (s : String) : String :=
  ⟨((s.data.dropWhile Char.isWhitespace).reverse.dropWhile Char.isWhitespace).reverse⟩

/-- Model of Python slicing `s[:n]` (by code point, as in Python). -/
def strTake (s : String) (n : Nat) : String :=
  ⟨s.data.take n⟩

/-- Split a character list at the first occurrence of `c`
(model of Python `str.split(c, 1)` when it finds a separator). -/
def breakOnChar (c : Char) : List Char → Option (List Char × List Char)
  | [] => none
  | d :: rest =>
      if d = c then some ([], rest)
      else
        match breakOnChar c rest with
        | none => none
        | some (a, b) => some (d :: a, b)

/-- Split a character list on every occurrence of `c`
(model of Python `str.split(c)`). -/
def splitOnChar (c : Char) : List Char → List (List Char)
  | [] => [[]]
  | d :: rest =>
      if d = c then [] :: splitOnChar c rest
      else
        match splitOnChar c rest with
        | [] => [[d]]
        | g :: gs => (d :: g) :: gs

/-- Model of `urlparse(url).query`: the part of the URL after the first `?`
(with any fragment after the first `#` removed first). -/
def urlQuery (url : String) : List Char :=
  let beforeFrag :=
    match breakOnChar '#' url.data with
    | some (a, _) => a
    | none => url.data
  match breakOnChar '?' beforeFrag with
  | some (_, q) => q
  | none => []

/-- Model of `parse_qs` on a query string, restricted to percent-free inputs
(the item URLs handled by the source are of the plain form
`https://www.goofish.com/item?id=NNN`): fields are split on `&`, a field
without `=` or with an empty value is dropped, and each kept field yields a
`(name, value)` pair in occurrence order. -/
def parseQsPairs (query : List Char) : List (String × String) :=
  (splitOnChar '&' query).filterMap fun field =>
    match breakOnChar '=' field with
    | none => none
    | some (name, value) =>
        if value.isEmpty then none else some (⟨name⟩, ⟨value⟩)

/-- `CSVManager._extract_id_from_url`: the first `id` query parameter, else the
first `itemId` query parameter, else the empty string
(`params.get("id", params.get("itemId", [""]))[0]`). -/
def extract_id_from_url (url : String) : String :=
  let params := parseQsPairs (urlQuery url)
  match params.find? (fun p => p.1 == "id") with
  | some p => p.2
  | none =>
      match params.find? (fun p => p.1 == "itemId") with
      | some p => p.2
      | none => ""

/-- Model of Python `"|".join(images)` from `CSVManager.write_success`. -/
def pipeJoin : List String → String
  | [] => ""
  | [s] => s
  | s :: rest => s ++ "|" ++ pipeJoin rest

/-! ## Data model -/

/-- One row of the checkpoint table `urls.csv`.  The CSV is read with
`dtype=str, keep_default_na=False`, so every cell is a string and blank cells
are the empty string. -/
structure Row where
  ITEM_ID : String
  CATEGORY_ID : String
  TITLE : String
  IMAGES : String
  SOLD_PRICE : String
  BROWSE_COUNT : String
  WANT_COUNT : String
  COLLECT_COUNT : String
  QUANTITY : String
  GMT_CREATE : String
  SELLER_ID : String
  URL : String
deriving DecidableEq, Repr

/-- `models.ProductData`: the normalized extraction result. -/
structure ProductData where
  ITEM_ID : String
  CATEGORY_ID : String
  TITLE : String
  IMAGES : List String
  SOLD_PRICE : String
  BROWSE_COUNT : Int
  WANT_COUNT : Int
  COLLECT_COUNT : Int
  QUANTITY : Int
  GMT_CREATE : String
  SELLER_ID : String
deriving DecidableEq, Repr

/-- The durable side of the store: the checkpoint file at `URLS_CSV_PATH`
and the temporary file `URLS_CSV_PATH + ".tmp"` used by the atomic flush. -/
structure Disk where
  durable : List Row
  tmp : Option (List Row)
deriving DecidableEq, Repr

/-- In-memory state of `CSVManager`: the loaded DataFrame, the two
deduplication id sets (modelled as lists with membership semantics), and the
dirty-write counter. -/
structure CSVManager where
  df : List Row
  completed_ids : List String
  failed_ids : List String
  writes_since_flush : Nat
deriving DecidableEq, Repr

/-- A `CSVManager` together with the disk it persists to. -/
structure Store where
  mgr : CSVManager
  disk : Disk
deriving DecidableEq, Repr

/-! ## In-place row mutation -/

/-- In-place update of position `i` of a list (model of the pandas
`df.at[row_idx, col] = v` writes, whose default `RangeIndex` labels coincide
with positions; the orchestrator only ever passes in-range indices). -/
def listModify {α : Type} (l : List α) (i : Nat) (f : α → α) : List α :=
  match l, i with
  | [], _ => []
  | a :: rest, 0 => f a :: rest
  | a :: rest, n + 1 => a :: listModify rest n f

theorem listModify_length {α : Type} (l : List α) (i : Nat) (f : α → α) :
    (listModify l i f).length = l.length := by
  induction l generalizing i with
  | nil => rfl
  | cons a rest ih =>
      cases i with
      | zero => rfl
      | succ n => simpa [listModify] using ih n

theorem listModify_get {α : Type} (l : List α) (i j : Nat) (f : α → α) :
    (listModify l i f).get? j =
      if j = i then (l.get? j).map f else l.get? j := by
  induction l generalizing i j with
  | nil => cases j <;> simp [listModify]
  | cons a rest ih =>
      cases i with
      | zero =>
          cases j with
          | zero => simp [listModify]
          | succ m => simp [listModify]
      | succ n =>
          cases j with
          | zero => simp [listModify]
          | succ m =>
              have h := ih n m
              simp only [listModify, List.get?]
              rw [h]
              by_cases hmn : m = n
              · simp [hmn]
              · simp [hmn, fun h => hmn (Nat.succ_injective h)]

/-! ## Checkpoint store operations (`csv_manager.py`) -/

/-- `config.SAVE_INTERVAL_ROWS`. -/
def SAVE_INTERVAL_ROWS : Nat := 50

/-- The per-row case of the classification loop in `CSVManager.load`:
a row whose stripped `ITEM_ID` equals `"FAILED"` contributes nothing here,
a row with any other non-empty stripped `ITEM_ID` contributes that value to
the completed-id set. -/
def loadCompleted (row : Row) : Option String :=
  if strTrim row.ITEM_ID = "FAILED" then none
  else if strTrim row.ITEM_ID ≠ "" then some (strTrim row.ITEM_ID)
  else none

/-- The per-row case of the classification loop in `CSVManager.load` for the
failed-id set: a row whose stripped `ITEM_ID` equals `"FAILED"` contributes
the item id recovered from the original `URL` of the row. -/
def loadFailed (row : Row) : Option String :=
  if strTrim row.ITEM_ID = "FAILED" then some (extract_id_from_url row.URL)
  else none

/-- `CSVManager.load` on a fresh manager: read the durable file into memory
and classify every row, collecting the completed-id and failed-id sets. -/
def load (file : List Row) : CSVManager :=
  { df := file
  , completed_ids := file.filterMap loadCompleted
  , failed_ids := file.filterMap loadFailed
  , writes_since_flush := 0 }

/-- The iteration of `CSVManager.get_pending_items` over `df.iterrows()`,
carrying the running positional index. -/
def pendingAux (completed failed : List String) : Nat → List Row → List (Nat × String)
  | _, [] => []
  | idx, row :: rest =>
      if extract_id_from_url row.URL ∉ completed ∧ extract_id_from_url row.URL ∉ failed then
        (idx, extract_id_from_url row.URL) :: pendingAux completed failed (idx + 1) rest
      else
        pendingAux completed failed (idx + 1) rest

/-- `CSVManager.get_pending_items`: the `(row_index, item_id)` pairs of all
rows whose URL-derived item id lies in neither id set, in original row
order. -/
def get_pending_items (m : CSVManager) : List (Nat × String) :=
  pendingAux m.completed_ids m.failed_ids 0 m.df

/-- The row mutation performed by `CSVManager.write_success`: all eleven
record columns are overwritten; the `URL` column is not touched. -/
def succUpdate (data : ProductData) (r : Row) : Row :=
  { r with
    ITEM_ID := data.ITEM_ID
    CATEGORY_ID := data.CATEGORY_ID
    TITLE := data.TITLE
    IMAGES := pipeJoin data.IMAGES
    SOLD_PRICE := data.SOLD_PRICE
    BROWSE_COUNT := toString data.BROWSE_COUNT
    WANT_COUNT := toString data.WANT_COUNT
    COLLECT_COUNT := toString data.COLLECT_COUNT
    QUANTITY := toString data.QUANTITY
    GMT_CREATE := data.GMT_CREATE
    SELLER_ID := data.SELLER_ID }

/-- The row mutation performed by `CSVManager.write_failure`: the `ITEM_ID`
column becomes the `"FAILED"` sentinel and the `TITLE` column becomes the
reason truncated to 200 characters (`reason[:200]`). -/
def failUpdate (reason : String) (r : Row) : Row :=
  { r with ITEM_ID := "FAILED", TITLE := strTake reason 200 }

/-- `CSVManager._flush_to_disk`, first half: `df.to_csv(tmp_path)` writes the
whole in-memory table to the temporary file. -/
def flushTmpWrite (s : Store) : Store :=
  { s with disk := { s.disk with tmp := some s.mgr.df } }

/-- `CSVManager._flush_to_disk`, second half: `os.replace(tmp_path, csv_path)`
atomically installs the temporary file as the durable file, then the
dirty-write counter is reset to zero. -/
def flushReplace (s : Store) : Store :=
  { mgr := { s.mgr with writes_since_flush := 0 }
  , disk := { durable := s.disk.tmp.getD s.disk.durable, tmp := none } }

/-- `CSVManager._flush_to_disk`: temp-file write followed by atomic replace. -/
def flush_to_disk (s : Store) : Store :=
  flushReplace (flushTmpWrite s)

/-- `CSVManager.flush`: force a flush (the `asyncio.Lock` serialization is
implicit in the sequential model). -/
def flush (s : Store) : Store :=
  flush_to_disk s

/-- `CSVManager.write_success`: overwrite the record columns of the row,
add the `ITEM_ID` of the record to the completed-id set, bump the dirty-write
counter, and flush once the counter reaches `SAVE_INTERVAL_ROWS`. -/
def write_success (s : Store) (row_idx : Nat) (data : ProductData) : Store :=
  let t : Store :=
    { mgr :=
        { df := listModify s.mgr.df row_idx (succUpdate data)
        , completed_ids := data.ITEM_ID :: s.mgr.completed_ids
        , failed_ids := s.mgr.failed_ids
        , writes_since_flush := s.mgr.writes_since_flush + 1 }
    , disk := s.disk }
  if SAVE_INTERVAL_ROWS ≤ t.mgr.writes_since_flush then flush_to_disk t else t

/-- `CSVManager.write_failure`: mark the row with the `"FAILED"` sentinel and
the truncated reason, add the caller-supplied item id to the failed-id set,
bump the dirty-write counter, and flush once the counter reaches
`SAVE_INTERVAL_ROWS`. -/
def write_failure (s : Store) (row_idx : Nat) (item_id : String) (reason : String) : Store :=
  let t : Store :=
    { mgr :=
        { df := listModify s.mgr.df row_idx (failUpdate reason)
        , completed_ids := s.mgr.completed_ids
        , failed_ids := item_id :: s.mgr.failed_ids
        , writes_since_flush := s.mgr.writes_since_flush + 1 }
    , disk := s.disk }
  if SAVE_INTERVAL_ROWS ≤ t.mgr.writes_since_flush then flush_to_disk t else t

/-! ## Batch orchestrator (`batch_scraper.py`) -/

/-- Outcome of one invocation of the item fetcher
(`BatchScraper._scrape_single`): a parsed product, or an exception whose
`str(e)` is the carried message. -/
inductive FetchResult where
  | success (product : ProductData)
  | failure (errMsg : String)
deriving DecidableEq, Repr

/-- The run-lifetime counters of `BatchScraper._stats` that the per-item
policy mutates. -/
structure RunStats where
  completed : Nat
  failed : Nat
  token_errors : Nat
deriving DecidableEq, Repr

/-- The orchestrator state seen by one worker: the shared store, the run
counters, and the cancellation flag (`asyncio.Event`). -/
structure OrchState where
  store : Store
  stats : RunStats
  cancelled : Bool
deriving DecidableEq, Repr

/-- The token/session classification the orchestrator applies to an exception message
(`"TOKEN" in error_str.upper() or "SESSION_EXPIRED" in error_str.upper()`). -/
def isTokenErrorStr (errMsg : String) : Bool :=
  strContains (strUpper errMsg) "TOKEN" || strContains (strUpper errMsg) "SESSION_EXPIRED"

/-- `BatchScraper._process_item` as a pure function of the cancellation flag
and the outcomes of the at most two fetch attempts.  Timing (the pacing delay
and the 2-second backoff before the retry) is abstracted away; `attempt2` is
consulted only on the retry path.  The semaphore acquisition is modelled
separately by `PoolStep`. -/
def process_item (st : OrchState) (row_idx : Nat) (item_id : String)
    (attempt1 attempt2 : FetchResult) : OrchState :=
  if st.cancelled then st
  else
    match attempt1 with
    | FetchResult.success product =>
        { st with
          store := write_success st.store row_idx product
          stats := { st.stats with completed := st.stats.completed + 1 } }
    | FetchResult.failure errMsg =>
        if isTokenErrorStr errMsg then
          { st with stats := { st.stats with token_errors := st.stats.token_errors + 1 } }
        else
          match attempt2 with
          | FetchResult.success product =>
              { st with
                store := write_success st.store row_idx product
                stats := { st.stats with completed := st.stats.completed + 1 } }
          | FetchResult.failure retry_err =>
              { st with
                store := write_failure st.store row_idx item_id (strTake retry_err 200)
                stats := { st.stats with failed := st.stats.failed + 1 } }

/-- `BatchScraper.cancel`: raise the cancellation signal and force an
immediate flush of everything recorded so far. -/
def cancel (st : OrchState) : OrchState :=
  { st with cancelled := true, store := flush st.store }

/-! ## Token-expiry detection in the fetchers
(`BatchScraper._scrape_single` and `GoofishAPIClient.fetch_product` carry the
textually identical keyword scan over the `ret` array of the response) -/

/-- The keyword list of both fetchers. -/
def TOKEN_ERROR_KEYWORDS : List String :=
  ["TOKEN_EMPTY", "TOKEN_EXOIRED", "SESSION_EXPIRED"]

/-- One `ret` code is a token/session indicator when its upper-cased text
contains one of the keywords. -/
def is_token_ret_code (code : String) : Bool :=
  TOKEN_ERROR_KEYWORDS.any (fun kw => strContains (strUpper code) kw)

/-- The fetchers raise their token-expired error iff some code in the `ret`
array is a token/session indicator. -/
def ret_has_token_error (ret : List String) : Bool :=
  ret.any is_token_ret_code

/-! ## Bounded-concurrency pool (`asyncio.Semaphore(concurrency)`)

`BatchScraper.run` creates one task per pending item; each task either skips
immediately (cancellation) or enters the `async with self._semaphore` section,
performs its fetch work there, and leaves.  The semaphore lets a task in only
while fewer than `N` tasks are inside the section; a fetch can only be in
flight while its task is inside the section. -/

/-- Lifecycle phase of one per-item task. -/
inductive TaskPhase where
  | created : TaskPhase
  | running : TaskPhase
  | finished : TaskPhase
deriving DecidableEq, Repr

/-- One scheduler step of the pool with concurrency bound `N`, on the multiset
of task phases: a created task may acquire the semaphore only while the
number of running tasks is below `N`; a running task may finish; a created
task may skip directly to finished (the cancellation path, which consumes no
slot). -/
inductive PoolStep (N : Nat) : Multiset TaskPhase → Multiset TaskPhase → Prop where
  | acquire (s : Multiset TaskPhase) :
      Multiset.count TaskPhase.running s < N →
      PoolStep N (TaskPhase.created ::ₘ s) (TaskPhase.running ::ₘ s)
  | release (s : Multiset TaskPhase) :
      PoolStep N (TaskPhase.running ::ₘ s) (TaskPhase.finished ::ₘ s)
  | skip (s : Multiset TaskPhase) :
      PoolStep N (TaskPhase.created ::ₘ s) (TaskPhase.finished ::ₘ s)

theorem poolStep_count_le {N : Nat} {a b : Multiset TaskPhase}
    (hstep : PoolStep N a b) (hb : Multiset.count TaskPhase.running a ≤ N) :
    Multiset.count TaskPhase.running b ≤ N := by
  cases hstep with
  | acquire s h =>
      rw [Multiset.count_cons_self]
      omega
  | release s =>
      rw [Multiset.count_cons_of_ne (by decide)]
      rw [Multiset.count_cons_self] at hb
      omega
  | skip s =>
      rw [Multiset.count_cons_of_ne (by decide)]
      rw [Multiset.count_cons_of_ne (by decide)] at hb
      omega

/-! ## Recorded mutations of one run (`write_success` / `write_failure`) -/

/-- One outcome persisted by the orchestrator during a run: either a
successful record or a failure, addressed to a row index. -/
inductive RecordOp where
  | succ (row_idx : Nat) (data : ProductData)
  | fail (row_idx : Nat) (item_id : String) (reason : String)
deriving DecidableEq, Repr

/-- Apply one recorded outcome to the store. -/
def applyOp (s : Store) : RecordOp → Store
  | RecordOp.succ i d => write_success s i d
  | RecordOp.fail i item reason => write_failure s i item reason

/-- Apply a sequence of recorded outcomes, left to right. -/
def applyOps (s : Store) (ops : List RecordOp) : Store :=
  ops.foldl applyOp s

/-- The row index an outcome addresses. -/
def opTarget : RecordOp → Nat
  | RecordOp.succ i _ => i
  | RecordOp.fail i _ _ => i

/-- The row mutation an outcome performs. -/
def opUpdate : RecordOp → Row → Row
  | RecordOp.succ _ d => succUpdate d
  | RecordOp.fail _ _ reason => failUpdate reason

/-- Well-formedness of one recorded outcome against the original table
`file`: a success targets an existing row and carries an identifier that,
once stripped, is non-empty, differs from the `"FAILED"` sentinel, and equals
the id derived from the URL of that row; a failure targets an existing row. -/
def OpGood (file : List Row) : RecordOp → Prop
  | RecordOp.succ i d =>
      strTrim d.ITEM_ID ≠ "" ∧ strTrim d.ITEM_ID ≠ "FAILED" ∧
      (file.get? i).map (fun r => extract_id_from_url r.URL) = some (strTrim d.ITEM_ID)
  | RecordOp.fail i _ _ => i < file.length

instance (file : List Row) (op : RecordOp) : Decidable (OpGood file op) := by
  cases op with
  | succ i d => exact inferInstanceAs (Decidable (_ ∧ _ ∧ _))
  | fail i item reason => exact inferInstanceAs (Decidable (_ < _))

/-- A row whose reload classification is final: either it carries the
`"FAILED"` sentinel, or it carries a non-empty non-sentinel identifier that
matches the id derived from its own URL (so that `get_pending_items` excludes
it after a reload). -/
def RowSettled (r : Row) : Prop :=
  strTrim r.ITEM_ID = "FAILED" ∨
    (strTrim r.ITEM_ID ≠ "" ∧ strTrim r.ITEM_ID ≠ "FAILED" ∧
      strTrim r.ITEM_ID = extract_id_from_url r.URL)

/-! ## Helper lemmas about the store operations -/

theorem write_success_df (s : Store) (i : Nat) (d : ProductData) :
    (write_success s i d).mgr.df = listModify s.mgr.df i (succUpdate d) := by
  unfold write_success flush_to_disk flushReplace flushTmpWrite
  dsimp only
  split <;> rfl

theorem write_failure_df (s : Store) (i : Nat) (item reason : String) :
    (write_failure s i item reason).mgr.df = listModify s.mgr.df i (failUpdate reason) := by
  unfold write_failure flush_to_disk flushReplace flushTmpWrite
  dsimp only
  split <;> rfl

theorem applyOp_df (s : Store) (op : RecordOp) :
    (applyOp s op).mgr.df = listModify s.mgr.df (opTarget op) (opUpdate op) := by
  cases op with
  | succ i d => exact write_success_df s i d
  | fail i item reason => exact write_failure_df s i item reason

theorem succUpdate_URL (d : ProductData) (r : Row) : (succUpdate d r).URL = r.URL := rfl

theorem failUpdate_URL (reason : String) (r : Row) : (failUpdate reason r).URL = r.URL := rfl

theorem opUpdate_URL (op : RecordOp) (r : Row) : (opUpdate op r).URL = r.URL := by
  cases op <;> rfl

theorem flush_durable (s : Store) : (flush s).disk.durable = s.mgr.df := rfl

theorem flush_df (s : Store) : (flush s).mgr.df = s.mgr.df := rfl

theorem flush_flush (s : Store) : flush (flush s) = flush s := rfl

/-! ## Helper lemmas about `load` and `get_pending_items` -/

theorem loadCompleted_eq_some {row : Row} {x : String} :
    loadCompleted row = some x ↔
      strTrim row.ITEM_ID ≠ "FAILED" ∧ strTrim row.ITEM_ID ≠ "" ∧ strTrim row.ITEM_ID = x := by
  unfold loadCompleted
  split_ifs with h1 h2
  · simp [h1]
  · simp [h1, h2, eq_comm]
  · simp only [not_not] at h2
    simp [h1, h2]

theorem loadFailed_eq_some {row : Row} {x : String} :
    loadFailed row = some x ↔
      strTrim row.ITEM_ID = "FAILED" ∧ extract_id_from_url row.URL = x := by
  unfold loadFailed
  split_ifs with h1
  · simp [h1]
  · simp [h1]

theorem mem_completed_iff (file : List Row) (x : String) :
    x ∈ (load file).completed_ids ↔
      ∃ r ∈ file, strTrim r.ITEM_ID ≠ "FAILED" ∧ strTrim r.ITEM_ID ≠ "" ∧
        strTrim r.ITEM_ID = x := by
  show x ∈ file.filterMap loadCompleted ↔ _
  rw [List.mem_filterMap]
  constructor
  · rintro ⟨r, hr, hsome⟩
    exact ⟨r, hr, loadCompleted_eq_some.mp hsome⟩
  · rintro ⟨r, hr, hprop⟩
    exact ⟨r, hr, loadCompleted_eq_some.mpr hprop⟩

theorem mem_failed_iff (file : List Row) (x : String) :
    x ∈ (load file).failed_ids ↔
      ∃ r ∈ file, strTrim r.ITEM_ID = "FAILED" ∧ extract_id_from_url r.URL = x := by
  show x ∈ file.filterMap loadFailed ↔ _
  rw [List.mem_filterMap]
  constructor
  · rintro ⟨r, hr, hsome⟩
    exact ⟨r, hr, loadFailed_eq_some.mp hsome⟩
  · rintro ⟨r, hr, hprop⟩
    exact ⟨r, hr, loadFailed_eq_some.mpr hprop⟩

theorem pendingAux_nil_of_settled (file : List Row) (rows : List Row)
    (h : ∀ r ∈ rows, r ∈ file ∧ RowSettled r) :
    ∀ idx : Nat,
      pendingAux (load file).completed_ids (load file).failed_ids idx rows = [] := by
  induction rows with
  | nil => intro idx; rfl
  | cons row rest ih =>
      intro idx
      obtain ⟨hmem, hsettled⟩ := h row (List.mem_cons_self row rest)
      have hcond : ¬(extract_id_from_url row.URL ∉ (load file).completed_ids ∧
          extract_id_from_url row.URL ∉ (load file).failed_ids) := by
        rcases hsettled with hf | ⟨hne, hnf, heq⟩
        · rintro ⟨_, h2⟩
          exact h2 ((mem_failed_iff file _).mpr ⟨row, hmem, hf, rfl⟩)
        · rintro ⟨h1, _⟩
          exact h1 ((mem_completed_iff file _).mpr ⟨row, hmem, hnf, hne, heq⟩)
      simp only [pendingAux]
      rw [if_neg hcond]
      exact ih (fun r hr => h r (List.mem_cons_of_mem row hr)) (idx + 1)

/-- Every row of a table whose rows are all settled is excluded from pending
work after a reload. -/
theorem pending_nil_of_settled (file : List Row) (h : ∀ r ∈ file, RowSettled r) :
    get_pending_items (load file) = [] :=
  pendingAux_nil_of_settled file file (fun r hr => ⟨hr, h r hr⟩) 0

/-! ## Effect of the recorded outcomes of a run on the table -/

theorem applyOp_untarget (s : Store) (op : RecordOp) (i : Nat) (hne : i ≠ opTarget op) :
    (applyOp s op).mgr.df.get? i = s.mgr.df.get? i := by
  rw [applyOp_df, listModify_get, if_neg hne]

theorem applyOp_url (file : List Row) (s : Store) (op : RecordOp)
    (hurl : ∀ j, (s.mgr.df.get? j).map Row.URL = (file.get? j).map Row.URL) :
    ∀ j, ((applyOp s op).mgr.df.get? j).map Row.URL = (file.get? j).map Row.URL := by
  intro j
  rw [applyOp_df, listModify_get]
  by_cases hj : j = opTarget op
  · rw [if_pos hj, ← hurl j]
    cases s.mgr.df.get? j <;> simp [opUpdate_URL]
  · rw [if_neg hj]
    exact hurl j

theorem applyOp_target_settled (file : List Row) (s : Store) (op : RecordOp)
    (hurl : ∀ j, (s.mgr.df.get? j).map Row.URL = (file.get? j).map Row.URL)
    (hgood : OpGood file op) :
    ∃ r, (applyOp s op).mgr.df.get? (opTarget op) = some r ∧ RowSettled r := by
  cases op with
  | succ i d =>
      obtain ⟨hne1, hne2, hmap⟩ := hgood
      obtain ⟨fr, hfr, hext⟩ := Option.map_eq_some'.mp hmap
      have hu := hurl i
      rw [hfr] at hu
      obtain ⟨r0, hr0, hurl0⟩ := Option.map_eq_some'.mp hu
      refine ⟨succUpdate d r0, ?_, ?_⟩
      · show (applyOp s (RecordOp.succ i d)).mgr.df.get? i = _
        rw [applyOp_df, listModify_get]
        simp only [opTarget, if_pos rfl]
        show (s.mgr.df.get? i).map (succUpdate d) = _
        rw [hr0]
        rfl
      · refine Or.inr ⟨hne1, hne2, ?_⟩
        show strTrim d.ITEM_ID = extract_id_from_url (succUpdate d r0).URL
        rw [succUpdate_URL, hurl0, hext]
  | fail i item reason =>
      have hlt : i < file.length := hgood
      have hnn : file.get? i ≠ none := by
        rw [Ne, List.get?_eq_none]
        omega
      obtain ⟨fr, hfr⟩ := Option.ne_none_iff_exists'.mp hnn
      have hu := hurl i
      rw [hfr] at hu
      obtain ⟨r0, hr0, _⟩ := Option.map_eq_some'.mp hu
      refine ⟨failUpdate reason r0, ?_,
        Or.inl (show strTrim ("FAILED" : String) = "FAILED" by decide)⟩
      show (applyOp s (RecordOp.fail i item reason)).mgr.df.get? i = _
      rw [applyOp_df, listModify_get]
      simp only [opTarget, if_pos rfl]
      show (s.mgr.df.get? i).map (failUpdate reason) = _
      rw [hr0]
      rfl

theorem applyOps_url (file : List Row) (ops : List RecordOp) :
    ∀ s : Store,
      (∀ j, (s.mgr.df.get? j).map Row.URL = (file.get? j).map Row.URL) →
      ∀ j, ((applyOps s ops).mgr.df.get? j).map Row.URL = (file.get? j).map Row.URL := by
  induction ops with
  | nil => intro s hurl j; exact hurl j
  | cons op rest ih =>
      intro s hurl j
      exact ih (applyOp s op) (applyOp_url file s op hurl) j

theorem applyOps_settled (file : List Row) (ops : List RecordOp) :
    ∀ s : Store,
      (∀ j, (s.mgr.df.get? j).map Row.URL = (file.get? j).map Row.URL) →
      (∀ op ∈ ops, OpGood file op) →
      ∀ i : Nat,
        ((∃ op ∈ ops, opTarget op = i) →
          ∃ r, (applyOps s ops).mgr.df.get? i = some r ∧ RowSettled r) ∧
        ((applyOps s ops).mgr.df.get? i = s.mgr.df.get? i ∨
          ∃ r, (applyOps s ops).mgr.df.get? i = some r ∧ RowSettled r) := by
  induction ops with
  | nil =>
      intro s _ _ i
      constructor
      · rintro ⟨op, hop, _⟩
        simp at hop
      · exact Or.inl rfl
  | cons op rest ih =>
      intro s hurl hgood i
      have hgoodRest : ∀ o ∈ rest, OpGood file o :=
        fun o ho => hgood o (List.mem_cons_of_mem op ho)
      have hurlNext := applyOp_url file s op hurl
      have IH := ih (applyOp s op) hurlNext hgoodRest i
      have happly : applyOps s (op :: rest) = applyOps (applyOp s op) rest := rfl
      have hTargetSettled : opTarget op = i →
          ∃ r, (applyOps s (op :: rest)).mgr.df.get? i = some r ∧ RowSettled r := by
        intro htgt
        rcases IH.2 with hunch | hsettled
        · obtain ⟨r, hr, hs⟩ :=
            applyOp_target_settled file s op hurl (hgood op (List.mem_cons_self op rest))
          refine ⟨r, ?_, hs⟩
          rw [happly, hunch, ← htgt]
          exact hr
        · rw [happly]
          exact hsettled
      constructor
      · rintro ⟨op0, hop0, htgt⟩
        rcases List.mem_cons.mp hop0 with heq | hrest
        · exact hTargetSettled (heq ▸ htgt)
        · rw [happly]
          exact IH.1 ⟨op0, hrest, htgt⟩
      · rcases IH.2 with hunch | hsettled
        · by_cases hi : opTarget op = i
          · exact Or.inr (hTargetSettled hi)
          · refine Or.inl ?_
            rw [happly, hunch]
            exact applyOp_untarget s op i (fun h => hi h.symm)
        · rw [happly]
          exact Or.inr hsettled

/-- After a run that records a well-formed outcome for every row of the
loaded table and then flushes, every row of the durable table is settled. -/
theorem run_result_settled (file : List Row) (d0 : Disk) (ops : List RecordOp)
    (hgood : ∀ op ∈ ops, OpGood file op)
    (hcover : ∀ i, i < file.length → ∃ op ∈ ops, opTarget op = i) :
    ∀ r ∈ (flush (applyOps { mgr := load file, disk := d0 } ops)).disk.durable,
      RowSettled r := by
  intro r hr
  rw [flush_durable] at hr
  obtain ⟨i, hi⟩ := List.mem_iff_get?.mp hr
  have hurl0 : ∀ j,
      ((({ mgr := load file, disk := d0 } : Store)).mgr.df.get? j).map Row.URL =
        (file.get? j).map Row.URL := fun j => rfl
  have hfile : (file.get? i).map Row.URL = some r.URL := by
    rw [← applyOps_url file ops _ hurl0 i, hi]
    rfl
  have hlt : i < file.length := by
    by_contra hge
    rw [List.get?_eq_none.mpr (by omega)] at hfile
    exact Option.noConfusion hfile
  obtain ⟨r2, hr2, hs2⟩ :=
    (applyOps_settled file ops _ hurl0 hgood i).1 (hcover i hlt)
  rw [hi] at hr2
  exact (Option.some_injective _ hr2.symm) ▸ hs2

/-! ## Spec-side pending computations (for comparison with the source) -/

/-- The pending computation as claim C7 words it, decided row by row: a row
is Completed iff its identifier column is non-empty and not the `"FAILED"`
sentinel, Failed iff its identifier column equals the sentinel, and the rows
classified neither way are returned in order.  Written from the words of
the claim, to be compared with `get_pending_items` from the source. -/
def pendingRowAux : Nat → List Row → List (Nat × String)
  | _, [] => []
  | idx, row :: rest =>
      if ¬(row.ITEM_ID ≠ "" ∧ row.ITEM_ID ≠ "FAILED") ∧ row.ITEM_ID ≠ "FAILED" then
        (idx, extract_id_from_url row.URL) :: pendingRowAux (idx + 1) rest
      else
        pendingRowAux (idx + 1) rest

/-- Per-row pending classification over the whole table (the words of claim C7). -/
def pending_by_row_claim (file : List Row) : List (Nat × String) :=
  pendingRowAux 0 file

/-- The pending computation the source actually implements, characterized
directly on the table: a row is excluded exactly when its URL-derived item id
equals the stripped identifier of some completed row of the table, or the
URL-derived id of some sentinel-marked row of the table. -/
def pendingSpecAux (file : List Row) : Nat → List Row → List (Nat × String)
  | _, [] => []
  | idx, row :: rest =>
      if (¬∃ r ∈ file, strTrim r.ITEM_ID ≠ "FAILED" ∧ strTrim r.ITEM_ID ≠ "" ∧
            strTrim r.ITEM_ID = extract_id_from_url row.URL) ∧
         (¬∃ r ∈ file, strTrim r.ITEM_ID = "FAILED" ∧
            extract_id_from_url r.URL = extract_id_from_url row.URL) then
        (idx, extract_id_from_url row.URL) :: pendingSpecAux file (idx + 1) rest
      else
        pendingSpecAux file (idx + 1) rest

/-- Table-level characterization of pending work (deduplicating by item id
across rows, as the source does). -/
def pending_by_table (file : List Row) : List (Nat × String) :=
  pendingSpecAux file 0 file

/-! ## Concrete fixtures -/

/-- The product URL shape the orchestrator fetches
(`https://www.goofish.com/item?id=...`). -/
def urlFor (id : String) : String := "https://www.goofish.com/item?id=" ++ id

/-- A fresh checkpoint row for a discovered URL: every column blank except
the source URL. -/
def blankRow (url : String) : Row :=
  { ITEM_ID := "", CATEGORY_ID := "", TITLE := "", IMAGES := "", SOLD_PRICE := ""
  , BROWSE_COUNT := "", WANT_COUNT := "", COLLECT_COUNT := "", QUANTITY := ""
  , GMT_CREATE := "", SELLER_ID := "", URL := url }

/-- A fully populated extraction result with the given identifier. -/
def sampleProduct (id : String) : ProductData :=
  { ITEM_ID := id, CATEGORY_ID := "50023914", TITLE := "vintage camera"
  , IMAGES := ["https://img.example/1.png"], SOLD_PRICE := "199.0"
  , BROWSE_COUNT := 12, WANT_COUNT := 3, COLLECT_COUNT := 5, QUANTITY := 1
  , GMT_CREATE := "2024-01-01 10:00:00", SELLER_ID := "987" }

/-- A one-row checkpoint table holding a single pending URL with id 111. -/
def table1 : List Row := [blankRow (urlFor "111")]

/-- The store after loading `table1` from disk. -/
def store1 : Store := { mgr := load table1, disk := { durable := table1, tmp := none } }

/-- An orchestrator state at the start of a run over `table1`. -/
def state1 : OrchState :=
  { store := store1
  , stats := { completed := 0, failed := 0, token_errors := 0 }
  , cancelled := false }

/-- The same state with the cancellation signal raised. -/
def state1c : OrchState := { state1 with cancelled := true }

/-- A two-row table in which row 0 is completed with identifier 111 and row 1
is a still-pending duplicate of the same URL. -/
def table7 : List Row :=
  [{ blankRow (urlFor "111") with ITEM_ID := "111" }, blankRow (urlFor "111")]

/-! ## Claims -/

/-- C1, counterexample to the claim as stated.  The claim covers a failure of
"the first attempt or the retry" that is classified session/token expired.
But `_process_item` applies the token classification only to the first
attempt: here the first attempt fails with a non-token interception error and
the retry fails with a message that the classifier of the orchestrator marks as
token expired, yet the code records the row as `"FAILED"` via
`write_failure`, increments the failed counter and leaves the token-error
counter at zero. -/
theorem token_error_on_retry_cex :
    isTokenErrorStr "Token expired: FAIL_SYS_TOKEN_EXOIRED" = true ∧
    (process_item state1 0 "111"
        (FetchResult.failure "Could not intercept API response for 111")
        (FetchResult.failure "Token expired: FAIL_SYS_TOKEN_EXOIRED")).stats.token_errors = 0 ∧
    (process_item state1 0 "111"
        (FetchResult.failure "Could not intercept API response for 111")
        (FetchResult.failure "Token expired: FAIL_SYS_TOKEN_EXOIRED")).stats.failed = 1 ∧
    (process_item state1 0 "111"
        (FetchResult.failure "Could not intercept API response for 111")
        (FetchResult.failure "Token expired: FAIL_SYS_TOKEN_EXOIRED")).store.mgr.df.map
        Row.ITEM_ID = ["FAILED"] := by
  decide

/-- C1 (amended): whenever the FIRST fetch attempt of a not-yet-cancelled
item fails with a message the orchestrator classifies as session/token
expired, the token-error counter is incremented, the store — and in
particular the row — is left untouched (the row stays Pending, never written
`"FAILED"`), and no retry happens within the run: the result does not depend
on `attempt2` at all. -/
theorem token_error_first_attempt (st : OrchState) (row_idx : Nat) (item_id : String)
    (errMsg : String) (attempt2 : FetchResult)
    (hc : st.cancelled = false) (ht : isTokenErrorStr errMsg = true) :
    process_item st row_idx item_id (FetchResult.failure errMsg) attempt2 =
      { st with stats := { st.stats with token_errors := st.stats.token_errors + 1 } } := by
  simp [process_item, hc, ht]

theorem token_error_first_attempt_w :
    process_item state1 0 "111"
        (FetchResult.failure "Token expired: FAIL_SYS_SESSION_EXPIRED")
        (FetchResult.success (sampleProduct "111")) =
      { state1 with
        stats := { state1.stats with token_errors := state1.stats.token_errors + 1 } } :=
  token_error_first_attempt state1 0 "111" _ _ rfl (by decide)

/-- C2: when the first fetch attempt of a not-yet-cancelled item fails with a
non-token error, the orchestrator retries exactly once (the backoff sleep is
abstracted away): a successful retry is persisted via `write_success` and
increments the completed counter; a failed retry is persisted via
`write_failure` with the reason truncated to 200 characters and increments
the failed counter.  The model consumes at most the two attempt outcomes, so
no third attempt exists within the run. -/
theorem retry_once_policy (st : OrchState) (row_idx : Nat) (item_id : String)
    (errMsg : String) (attempt2 : FetchResult)
    (hc : st.cancelled = false) (ht : isTokenErrorStr errMsg = false) :
    (∀ product, attempt2 = FetchResult.success product →
        process_item st row_idx item_id (FetchResult.failure errMsg) attempt2 =
          { st with
            store := write_success st.store row_idx product
            stats := { st.stats with completed := st.stats.completed + 1 } }) ∧
    (∀ retry_err, attempt2 = FetchResult.failure retry_err →
        process_item st row_idx item_id (FetchResult.failure errMsg) attempt2 =
          { st with
            store := write_failure st.store row_idx item_id (strTake retry_err 200)
            stats := { st.stats with failed := st.stats.failed + 1 } }) := by
  constructor
  · rintro product rfl
    simp [process_item, hc, ht]
  · rintro retry_err rfl
    simp [process_item, hc, ht]

theorem retry_once_policy_w :
    (process_item state1 0 "111"
        (FetchResult.failure "Could not intercept API response for 111")
        (FetchResult.success (sampleProduct "111")) =
      { state1 with
        store := write_success state1.store 0 (sampleProduct "111")
        stats := { state1.stats with completed := state1.stats.completed + 1 } }) ∧
    (process_item state1 0 "111"
        (FetchResult.failure "Could not intercept API response for 111")
        (FetchResult.failure "Item not found: 111") =
      { state1 with
        store := write_failure state1.store 0 "111" (strTake "Item not found: 111" 200)
        stats := { state1.stats with failed := state1.stats.failed + 1 } }) :=
  ⟨(retry_once_policy state1 0 "111" "Could not intercept API response for 111"
      (FetchResult.success (sampleProduct "111")) rfl (by decide)).1 _ rfl,
   (retry_once_policy state1 0 "111" "Could not intercept API response for 111"
      (FetchResult.failure "Item not found: 111") rfl (by decide)).2 _ rfl⟩

/-- C3, counterexample to the claim as stated.  The single pending row (URL
id 111) is recorded Completed via `write_success` — with a record whose
identifier is 222 — and the table is flushed.  Reloading classifies the row
Completed (non-empty, non-sentinel identifier), yet `get_pending_items`
still returns the row, because pending filtering matches the URL-derived id
111 against the id sets, and 111 is in neither.  A second run would
therefore fetch it again, contradicting "pendingWork returns the empty
sequence". -/
theorem resume_idempotent_cex :
    get_pending_items (load ((flush (applyOps
        { mgr := load table1, disk := { durable := table1, tmp := none } }
        [RecordOp.succ 0 (sampleProduct "222")])).disk.durable)) = [(0, "111")] := by
  decide

/-- C3 (amended): resume is idempotent provided every success record carries
an identifier that, once stripped, is non-empty, differs from the `"FAILED"`
sentinel and equals the id derived from the URL of the target row (which is how
the orchestrator produces records).  Under that proviso, if a run over a
loaded table records an outcome for every row and flushes, then reloading
the durable table classifies every row Completed or Failed and
`get_pending_items` returns the empty sequence, so a second run issues zero
fetches. -/
theorem resume_idempotent_amended (file : List Row) (d0 : Disk) (ops : List RecordOp)
    (hgood : ∀ op ∈ ops, OpGood file op)
    (hcover : ∀ i, i < file.length → ∃ op ∈ ops, opTarget op = i) :
    (∀ r ∈ (flush (applyOps { mgr := load file, disk := d0 } ops)).disk.durable,
        strTrim r.ITEM_ID = "FAILED" ∨
          (strTrim r.ITEM_ID ≠ "" ∧ strTrim r.ITEM_ID ≠ "FAILED")) ∧
    get_pending_items
        (load ((flush (applyOps { mgr := load file, disk := d0 } ops)).disk.durable)) =
      [] := by
  have hs := run_result_settled file d0 ops hgood hcover
  constructor
  · intro r hr
    rcases hs r hr with hf | ⟨h1, h2, _⟩
    · exact Or.inl hf
    · exact Or.inr ⟨h1, h2⟩
  · exact pending_nil_of_settled _ hs

theorem resume_idempotent_amended_w :
    get_pending_items (load ((flush (applyOps
        { mgr := load table1, disk := { durable := table1, tmp := none } }
        [RecordOp.succ 0 (sampleProduct "111")])).disk.durable)) = [] :=
  (resume_idempotent_amended table1 { durable := table1, tmp := none }
      [RecordOp.succ 0 (sampleProduct "111")] (by decide) (by decide)).2

/-- C4: with a positive concurrency bound `N`, along every scheduler trace of
the semaphore-bounded pool that starts from any number `k` of created tasks,
at no reachable state are more than `N` tasks inside the semaphore section —
hence never more than `N` fetches in flight — regardless of how many work
items exist. -/
theorem concurrency_bound (N k : Nat) (_hN : 0 < N) (s : Multiset TaskPhase)
    (h : Relation.ReflTransGen (PoolStep N) (Multiset.replicate k TaskPhase.created) s) :
    Multiset.count TaskPhase.running s ≤ N := by
  induction h with
  | refl => simp [Multiset.count_replicate]
  | tail hsteps hstep ih => exact poolStep_count_le hstep ih

theorem concurrency_bound_w :
    0 < 2 ∧ Multiset.count TaskPhase.running (Multiset.replicate 3 TaskPhase.created) ≤ 2 :=
  ⟨by decide, concurrency_bound 2 3 (by decide) _ Relation.ReflTransGen.refl⟩

/-- C5: `flush` first writes the whole in-memory table to the temporary
location, then atomically replaces the durable target with it and resets the
dirty-write counter; after the temp-file write but before the replace
(`flushTmpWrite` alone), the previously durable table is untouched, so a
crash at that point leaves it intact and readable. -/
theorem flush_atomic (s : Store) :
    (flushTmpWrite s).disk.tmp = some s.mgr.df ∧
    (flushTmpWrite s).disk.durable = s.disk.durable ∧
    flush s = flushReplace (flushTmpWrite s) ∧
    (flush s).disk.durable = s.mgr.df ∧
    (flush s).disk.tmp = none ∧
    (flush s).mgr.writes_since_flush = 0 :=
  ⟨rfl, rfl, rfl, rfl, rfl, rfl⟩

theorem flush_atomic_w :
    (flushTmpWrite store1).disk.durable = store1.disk.durable ∧
    (flush store1).disk.durable = store1.mgr.df :=
  ⟨(flush_atomic store1).2.1, (flush_atomic store1).2.2.2.1⟩

/-- C6: starting from a dirty-write counter below the threshold (its value on
load is 0, and each record call re-establishes the bound), `write_success`
and `write_failure` increment the counter and flush exactly when it reaches
`SAVE_INTERVAL_ROWS` — resetting it to zero and making the durable table
equal the in-memory table — and otherwise leave the disk untouched; in
either case the counter after the call is at most `SAVE_INTERVAL_ROWS - 1`,
bounding the unflushed mutations. -/
theorem auto_flush_invariant (s : Store) (row_idx : Nat) (d : ProductData)
    (item reason : String)
    (hinv : s.mgr.writes_since_flush < SAVE_INTERVAL_ROWS) :
    ((write_success s row_idx d).mgr.writes_since_flush ≤ SAVE_INTERVAL_ROWS - 1 ∧
      (s.mgr.writes_since_flush + 1 = SAVE_INTERVAL_ROWS →
        (write_success s row_idx d).mgr.writes_since_flush = 0 ∧
        (write_success s row_idx d).disk.durable = (write_success s row_idx d).mgr.df ∧
        (write_success s row_idx d).disk.tmp = none) ∧
      (s.mgr.writes_since_flush + 1 < SAVE_INTERVAL_ROWS →
        (write_success s row_idx d).mgr.writes_since_flush =
            s.mgr.writes_since_flush + 1 ∧
        (write_success s row_idx d).disk = s.disk)) ∧
    ((write_failure s row_idx item reason).mgr.writes_since_flush ≤
          SAVE_INTERVAL_ROWS - 1 ∧
      (s.mgr.writes_since_flush + 1 = SAVE_INTERVAL_ROWS →
        (write_failure s row_idx item reason).mgr.writes_since_flush = 0 ∧
        (write_failure s row_idx item reason).disk.durable =
            (write_failure s row_idx item reason).mgr.df ∧
        (write_failure s row_idx item reason).disk.tmp = none) ∧
      (s.mgr.writes_since_flush + 1 < SAVE_INTERVAL_ROWS →
        (write_failure s row_idx item reason).mgr.writes_since_flush =
            s.mgr.writes_since_flush + 1 ∧
        (write_failure s row_idx item reason).disk = s.disk)) := by
  have h50 : SAVE_INTERVAL_ROWS = 50 := rfl
  constructor
  · unfold write_success flush_to_disk flushReplace flushTmpWrite
    dsimp only
    by_cases h : SAVE_INTERVAL_ROWS ≤ s.mgr.writes_since_flush + 1
    · rw [if_pos h]
      exact ⟨by show (0 : Nat) ≤ SAVE_INTERVAL_ROWS - 1; omega,
        fun _ => ⟨rfl, rfl, rfl⟩, fun hlt => absurd h (by omega)⟩
    · rw [if_neg h]
      exact ⟨by show s.mgr.writes_since_flush + 1 ≤ SAVE_INTERVAL_ROWS - 1; omega,
        fun heq => absurd heq (by omega), fun _ => ⟨rfl, rfl⟩⟩
  · unfold write_failure flush_to_disk flushReplace flushTmpWrite
    dsimp only
    by_cases h : SAVE_INTERVAL_ROWS ≤ s.mgr.writes_since_flush + 1
    · rw [if_pos h]
      exact ⟨by show (0 : Nat) ≤ SAVE_INTERVAL_ROWS - 1; omega,
        fun _ => ⟨rfl, rfl, rfl⟩, fun hlt => absurd h (by omega)⟩
    · rw [if_neg h]
      exact ⟨by show s.mgr.writes_since_flush + 1 ≤ SAVE_INTERVAL_ROWS - 1; omega,
        fun heq => absurd heq (by omega), fun _ => ⟨rfl, rfl⟩⟩

theorem auto_flush_invariant_w :
    (write_success store1 0 (sampleProduct "111")).mgr.writes_since_flush ≤
      SAVE_INTERVAL_ROWS - 1 :=
  ((auto_flush_invariant store1 0 (sampleProduct "111") "111" "reason"
      (by decide)).1).1

/-- C7, counterexample to the claim as stated.  In `table7`, row 1 is Pending
by the per-row classification of the claim (empty identifier), so the claim
predicts `[(1, "111")]`; but the source filters by the id sets built at
load, the completed identifier 111 of row 0 equals the URL-derived id of row 1, and
`get_pending_items` returns the empty list. -/
theorem pending_per_row_cex :
    get_pending_items (load table7) = [] ∧
    pending_by_row_claim table7 = [(1, "111")] := by
  decide

/-- C7 (amended): `get_pending_items` after a load returns, in original row
order, exactly the rows whose URL-derived item id matches neither the
stripped identifier of any completed row of the table nor the URL-derived id
of any sentinel-marked row — i.e. pending filtering deduplicates by item id
across rows rather than classifying each row in isolation.  The call is a
pure function of the loaded state, so it mutates nothing and repeated
invocations return the same sequence. -/
theorem pending_of_load (file : List Row) :
    get_pending_items (load file) = pending_by_table file := by
  show pendingAux (load file).completed_ids (load file).failed_ids 0 (load file).df =
    pendingSpecAux file 0 file
  have key : ∀ rows idx,
      pendingAux (load file).completed_ids (load file).failed_ids idx rows =
        pendingSpecAux file idx rows := by
    intro rows
    induction rows with
    | nil => intro idx; rfl
    | cons row rest ih =>
        intro idx
        simp only [pendingAux, pendingSpecAux]
        rw [ih (idx + 1)]
        refine if_congr (and_congr ?_ ?_) rfl rfl
        · exact not_congr (mem_completed_iff file _)
        · exact not_congr (mem_failed_iff file _)
  exact key file 0

theorem pending_of_load_w :
    get_pending_items (load table7) = pending_by_table table7 :=
  pending_of_load table7

/-- C8: an item whose cancellation check fires is skipped with no effect at
all — no slot, no fetch, no row mutation, no counter change; `cancel` raises
the signal and forces an immediate flush of everything recorded so far; and
a second `cancel` leaves the store and the signal state identical. -/
theorem cancellation_policy :
    (∀ (st : OrchState) (row_idx : Nat) (item_id : String) (a1 a2 : FetchResult),
        st.cancelled = true → process_item st row_idx item_id a1 a2 = st) ∧
    (∀ st : OrchState, (cancel st).cancelled = true ∧ (cancel st).store = flush st.store) ∧
    (∀ st : OrchState, cancel (cancel st) = cancel st) := by
  refine ⟨?_, fun st => ⟨rfl, rfl⟩, fun st => rfl⟩
  intro st _ _ _ _ hc
  simp [process_item, hc]

theorem cancellation_policy_w :
    process_item state1c 0 "111" (FetchResult.success (sampleProduct "111"))
        (FetchResult.success (sampleProduct "111")) = state1c :=
  cancellation_policy.1 state1c 0 "111" _ _ rfl

/-- C9, counterexample to the claim as stated.  A `ret` code containing the
correctly spelled `TOKEN_EXPIRED` (case-insensitively) is NOT classified as
a token-expired failure by the fetchers: the keyword list contains only
`TOKEN_EMPTY`, the misspelled `TOKEN_EXOIRED`, and `SESSION_EXPIRED`, and
`TOKEN_EXPIRED` contains none of them. -/
theorem token_spelling_cex :
    strContains (strUpper "FAIL_SYS_TOKEN_EXPIRED") "TOKEN_EXPIRED" = true ∧
    ret_has_token_error ["FAIL_SYS_TOKEN_EXPIRED"] = false := by
  decide

/-- C9 (amended): the fetchers classify a response as token-expired exactly
via the keyword list `TOKEN_EMPTY` / `TOKEN_EXOIRED` / `SESSION_EXPIRED`:
any `ret` code whose upper-cased text contains one of those keywords
triggers the classification (so the misspelled `TOKEN_EXOIRED` is accepted,
case-insensitively), while the correctly spelled `TOKEN_EXPIRED` is not a
keyword and on its own triggers nothing. -/
theorem token_detection_amended (ret : List String) (code : String)
    (hmem : code ∈ ret)
    (h : strContains (strUpper code) "TOKEN_EMPTY" = true ∨
         strContains (strUpper code) "TOKEN_EXOIRED" = true ∨
         strContains (strUpper code) "SESSION_EXPIRED" = true) :
    ret_has_token_error ret = true := by
  rw [ret_has_token_error, List.any_eq_true]
  refine ⟨code, hmem, ?_⟩
  rw [is_token_ret_code, List.any_eq_true]
  rcases h with h | h | h
  · exact ⟨"TOKEN_EMPTY", by simp [TOKEN_ERROR_KEYWORDS], h⟩
  · exact ⟨"TOKEN_EXOIRED", by simp [TOKEN_ERROR_KEYWORDS], h⟩
  · exact ⟨"SESSION_EXPIRED", by simp [TOKEN_ERROR_KEYWORDS], h⟩

theorem token_detection_amended_w :
    ret_has_token_error ["mtop request fail: token_exoired"] = true :=
  token_detection_amended ["mtop request fail: token_exoired"]
    "mtop request fail: token_exoired" (by decide) (Or.inr (Or.inl (by decide)))

/-- C10: `write_failure` is frame-preserving on the table: at the targeted
row index it rewrites only the identifier column (to the `"FAILED"`
sentinel) and the title column (to the reason truncated to 200 characters),
leaving every other column — in particular the original `URL` column that
`load` later uses to recover the item id — intact, and every other row of
the table unchanged. -/
theorem write_failure_frame (s : Store) (row_idx : Nat) (item_id reason : String) :
    ∀ j : Nat,
      (write_failure s row_idx item_id reason).mgr.df.get? j =
        if j = row_idx then
          (s.mgr.df.get? j).map
            (fun r => { r with ITEM_ID := "FAILED", TITLE := strTake reason 200 })
        else s.mgr.df.get? j := by
  intro j
  rw [write_failure_df, listModify_get]
  rfl

theorem write_failure_frame_w :
    (write_failure store1 0 "111" "boom").mgr.df.get? 0 =
      some { blankRow (urlFor "111") with
             ITEM_ID := "FAILED", TITLE := strTake "boom" 200 } := by
  have h := write_failure_frame store1 0 "111" "boom" 0
  rw [h]
  decide

end Scraping
